import Mathlib

/-!
# Bus Routing System — verification of the specification against the source

Shallow embedding of `src/geocode_addresses.py` and `src/main.py`.

Modelling conventions:
* CSV field values that are either empty or numeric are modelled as
  `Option ℚ` (`none` is the empty string, `some q` a numeric value);
  coordinates are `(longitude, latitude)` pairs of rationals.
* Calls to the external OpenRouteService client are modelled by explicit
  collaborator functions passed in as parameters (`provider` for
  `client.distance_matrix`, `g` for `client.pelias_search`), and the
  OR-Tools solver by a `solve` function: the Python code treats all of
  them as opaque, so their behaviour is a parameter of the embedding.
* `print` side effects are modelled by returning the printed data
  (warning lists, report records, failure messages).
-/

namespace BusRouting

/-- A coordinate as handed to OpenRouteService: `(lon, lat)`. -/
abbrev Coord := ℚ × ℚ

/-! ## geocode_addresses.py -/

/-- An input CSV row for `geocode_addresses`: its original fields
(as an ordered association list, mirroring `csv.DictReader`) and the
value of its `address` column. -/
structure InRow where
  fields : List (String × String)
  address : String
deriving DecidableEq

/-- Result of one `client.pelias_search(addr, size=1)` call:
`found lon lat` when `res["features"]` is non-empty (the coordinates of
`features[0]`), `empty` when `features` is `[]`, `error` when the call
raises an exception. -/
inductive GeoResult where
  | found : ℚ → ℚ → GeoResult
  | empty : GeoResult
  | error : String → GeoResult
deriving DecidableEq

/-- `true` when the geocoder call did not produce a coordinate
(empty feature list or exception). -/
def GeoResult.isFail : GeoResult → Bool
  | .found _ _ => false
  | .empty => true
  | .error _ => true

/-- An output CSV row: the original fields plus the `lat`/`lon` columns;
`none` models the empty string written on failure. -/
structure OutRow where
  fields : List (String × String)
  lat : Option ℚ
  lon : Option ℚ
deriving DecidableEq

/-- The body of the per-row loop of `geocode_addresses`: try the
geocoder, fill `lat`/`lon` on success, set both to the empty value on an
empty result or an exception. -/
def geocode_row (g : String → GeoResult) (row : InRow) : OutRow :=
  match g row.address with
  | .found lon lat => { fields := row.fields, lat := some lat, lon := some lon }
  | .empty => { fields := row.fields, lat := none, lon := none }
  | .error _ => { fields := row.fields, lat := none, lon := none }

/-- `geocode_addresses(input_csv, output_csv, ors_key)`: reads the rows,
processes each in order, and appends each processed row to the output
(`writer.writerow` inside the loop). -/
def geocode_addresses (g : String → GeoResult) (rows : List InRow) : List OutRow :=
  rows.foldl (fun out row => out ++ [geocode_row g row]) []

lemma geocode_addresses_foldl (g : String → GeoResult) :
    ∀ (rows : List InRow) (acc : List OutRow),
      rows.foldl (fun out row => out ++ [geocode_row g row]) acc
        = acc ++ rows.map (geocode_row g) := by
  intro rows
  induction rows with
  | nil => intro acc; simp
  | cons r rest ih =>
      intro acc
      simp only [List.foldl_cons, List.map_cons]
      rw [ih]
      simp

/-- `geocode_addresses` is row-by-row processing in input order. -/
lemma geocode_addresses_eq_map (g : String → GeoResult) (rows : List InRow) :
    geocode_addresses g rows = rows.map (geocode_row g) := by
  unfold geocode_addresses
  rw [geocode_addresses_foldl]
  simp

/-! ## main.py — loading -/

/-- A raw row of `students.csv` as seen by `load_students`: `lat`/`lon`
are `none` when the CSV field is empty (the `if not row["lat"] or not
row["lon"]` test), `some q` when it holds a numeric value. -/
structure StudentRow where
  id : Int
  name : String
  lat : Option ℚ
  lon : Option ℚ
deriving DecidableEq

/-- A loaded student record (`load_students` output element). -/
structure Student where
  id : Int
  name : String
  lat : ℚ
  lon : ℚ
deriving DecidableEq

/-- The warning printed for a row skipped by `load_students`. -/
def skip_msg (name : String) : String :=
  "Skipping student " ++ name ++ " (missing coordinates)"

/-- `true` when the row has both coordinates present. -/
def StudentRow.resolved (r : StudentRow) : Bool :=
  r.lat.isSome && r.lon.isSome

/-- The student built from a resolved row. -/
def StudentRow.toStudent (r : StudentRow) : Student :=
  { id := r.id, name := r.name, lat := r.lat.getD 0, lon := r.lon.getD 0 }

/-- `load_students(csv_file)`: keeps the rows with both coordinates, in
order, and prints one warning per skipped row. The returned pair is
(students list, warnings printed). -/
def load_students (rows : List StudentRow) : List Student × List String :=
  rows.foldl
    (fun acc row =>
      match row.lat, row.lon with
      | some _, some _ => (acc.1 ++ [row.toStudent], acc.2)
      | _, _ => (acc.1, acc.2 ++ [skip_msg row.name]))
    ([], [])

lemma load_students_foldl :
    ∀ (rows : List StudentRow) (acc : List Student × List String),
      rows.foldl
        (fun acc row =>
          match row.lat, row.lon with
          | some _, some _ => (acc.1 ++ [row.toStudent], acc.2)
          | _, _ => (acc.1, acc.2 ++ [skip_msg row.name]))
        acc
      = (acc.1 ++ (rows.filter StudentRow.resolved).map StudentRow.toStudent,
         acc.2 ++ (rows.filter (fun r => !r.resolved)).map (fun r => skip_msg r.name)) := by
  intro rows
  induction rows with
  | nil => intro acc; simp
  | cons r rest ih =>
      intro acc
      simp only [List.foldl_cons]
      rcases hla : r.lat with _ | la <;> rcases hlo : r.lon with _ | lo <;>
        · rw [ih]
          simp [StudentRow.resolved, hla, hlo]

lemma load_students_eq (rows : List StudentRow) :
    load_students rows
      = ((rows.filter StudentRow.resolved).map StudentRow.toStudent,
         (rows.filter (fun r => !r.resolved)).map (fun r => skip_msg r.name)) := by
  unfold load_students
  rw [load_students_foldl]
  simp

/-- A bus record as loaded by `load_buses` (one per CSV row, `id` and
`capacity` parsed as integers). -/
structure Bus where
  id : Int
  capacity : Int
deriving DecidableEq

/-! ## main.py — distance matrix -/

/-- The request `build_distance_matrix_ors` issues through
`client.distance_matrix`. -/
structure MatrixRequest where
  locations : List Coord
  profile : String
  metrics : List String
  units : String
deriving DecidableEq

/-- The request as built in `build_distance_matrix_ors`: the profile,
metrics and units are written literally at the call site. -/
def ors_matrix_request (coords : List Coord) : MatrixRequest :=
  { locations := coords, profile := "driving-car",
    metrics := ["distance"], units := "m" }

/-- The `matrix["distances"]` payload returned by the provider: a cell
is `some d` when the JSON value is numeric (so `int(d)` succeeds,
truncating), `none` when it is malformed or null (so `int(d)` raises). -/
abbrev RawMatrix := List (List (Option Int))

/-- `[int(d) for d in row]`: converts every cell of one row, raising
(`none`) as soon as one cell is malformed. -/
def decode_row : List (Option Int) → Option (List Int)
  | [] => some []
  | none :: _ => none
  | some d :: rest =>
      match decode_row rest with
      | some t => some (d :: t)
      | none => none

/-- `[[int(d) for d in row] for row in distances]`: converts every row,
raising (`none`) as soon as one row fails. -/
def decode_distances : RawMatrix → Option (List (List Int))
  | [] => some []
  | row :: rest =>
      match decode_row row with
      | none => none
      | some r =>
          match decode_distances rest with
          | some t => some (r :: t)
          | none => none

/-- `build_distance_matrix_ors(client, coords)`: issues the matrix
request and converts the returned `distances` payload cell by cell. -/
def build_distance_matrix_ors (provider : MatrixRequest → RawMatrix)
    (coords : List Coord) : Option (List (List Int)) :=
  decode_distances (provider (ors_matrix_request coords))

/-- An `n × n` matrix: `n` rows, each of length `n`. -/
def is_complete_matrix (n : Nat) (m : List (List Int)) : Bool :=
  m.length == n && m.all (fun row => row.length == n)

/-! ## main.py — data model -/

/-- The dictionary returned by `create_data_model`. -/
structure DataModel where
  distance_matrix : List (List Int)
  demands : List Int
  vehicle_capacities : List Int
  num_vehicles : Nat
  depot : Nat
  coords : List Coord
  students : List Student
  buses : List Bus
deriving DecidableEq

/-- `create_data_model(students, buses, school_coords, ors_key)`. The
OpenRouteService client built from `ors_key` is abstracted by
`provider`; the result is `none` when the matrix conversion raises
(the exception propagates and no model is produced). -/
def create_data_model (students : List Student) (buses : List Bus)
    (school_coords : Coord) (provider : MatrixRequest → RawMatrix) :
    Option DataModel :=
  let coords := school_coords :: students.map (fun s => (s.lon, s.lat))
  match build_distance_matrix_ors provider coords with
  | none => none
  | some m =>
      some { distance_matrix := m,
             demands := 0 :: List.replicate students.length 1,
             vehicle_capacities := buses.map Bus.capacity,
             num_vehicles := buses.length,
             depot := 0,
             coords := coords,
             students := students,
             buses := buses }

/-- Aggregate demand, the quantity the spec's validation step sums;
`main.py` never computes it. -/
def total_demand (d : DataModel) : Int := d.demands.sum

/-- Aggregate capacity, the quantity the spec's validation step sums;
`main.py` never computes it. -/
def total_capacity (d : DataModel) : Int := d.vehicle_capacities.sum

/-! ## main.py — solution reporter -/

/-- A solver assignment: for each vehicle, the node sequence obtained by
following `routing.NextVar` from `routing.Start(v)` up to (excluding)
the end node; the first node is the depot `0`, the final return to the
depot is implicit. -/
structure Solution where
  routes : List (List Nat)
deriving DecidableEq

/-- `data["distance_matrix"][a][b]`. -/
def mat_at (m : List (List Int)) (a b : Nat) : Int :=
  (m.getD a []).getD b 0

/-- Sum of consecutive directional arc costs along a node sequence. -/
def arc_sum (m : List (List Int)) : List Nat → Int
  | [] => 0
  | [_] => 0
  | a :: b :: rest => mat_at m a b + arc_sum m (b :: rest)

/-- The `route_dist` accumulated by the while loop of `print_solution`:
each iteration adds `GetArcCostForVehicle(prev_index, index, v)`, which
is `distance_matrix[node(prev)][node(index)]` since the transit callback
is the cost evaluator of all vehicles; the last iteration adds the arc
back to the depot (the end node maps to node 0). -/
def route_dist_loop (m : List (List Int)) : List Nat → Int
  | [] => 0
  | [a] => mat_at m a 0
  | a :: b :: rest => mat_at m a b + route_dist_loop m (b :: rest)

/-- A route's distance as the spec describes it: the sum of consecutive
directional arc costs along the route closed back at the depot. -/
def route_distance (m : List (List Int)) (route : List Nat) : Int :=
  arc_sum m (route ++ [0])

lemma route_dist_loop_eq_route_distance (m : List (List Int)) (l : List Nat) :
    route_dist_loop m l = route_distance m l := by
  unfold route_distance
  induction l with
  | nil => simp [route_dist_loop, arc_sum]
  | cons a t ih =>
      cases t with
      | nil => simp [route_dist_loop, arc_sum]
      | cons b r =>
          rw [route_dist_loop, List.cons_append, List.cons_append, arc_sum,
            ← List.cons_append, ih]

/-- The `route_students` list collected by the loop: the name of
`data["students"][node-1]` for every visited non-depot node. -/
def route_students_of (students : List Student) (route : List Nat) : List String :=
  (route.filter (fun n => n != 0)).map
    (fun n => (students.getD (n - 1) { id := 0, name := "", lat := 0, lon := 0 }).name)

/-- The block printed for one vehicle with a non-empty route. -/
structure RouteReport where
  bus_id : Int
  bus_capacity : Int
  names : List String
  nodes : List Nat
  node_coords : List Coord
  dist : Int
deriving DecidableEq

/-- Everything `print_solution` prints: the per-vehicle blocks (only for
vehicles whose route contains a student) and the final total. -/
structure Report where
  route_reports : List RouteReport
  total_dist : Int
deriving DecidableEq

/-- One iteration of the vehicle loop of `print_solution`: walk vehicle
`v`'s route, append its block when it serves at least one student, and
always add its distance to the running total. -/
def print_step (data : DataModel) (sol : Solution) (rep : Report) (v : Nat) : Report :=
  let route := sol.routes.getD v [0]
  let names := route_students_of data.students route
  let nodes := route ++ [0]
  let d := route_dist_loop data.distance_matrix route
  { route_reports :=
      if names.length > 0 then
        rep.route_reports ++
          [{ bus_id := (data.buses.getD v { id := 0, capacity := 0 }).id,
             bus_capacity := (data.buses.getD v { id := 0, capacity := 0 }).capacity,
             names := names, nodes := nodes,
             node_coords := nodes.map (fun n => data.coords.getD n (0, 0)),
             dist := d }]
      else rep.route_reports,
    total_dist := rep.total_dist + d }

/-- `print_solution(data, manager, routing, solution)`: the vehicle loop
over `range(data["num_vehicles"])`. -/
def print_solution (data : DataModel) (sol : Solution) : Report :=
  (List.range data.num_vehicles).foldl (print_step data sol)
    { route_reports := [], total_dist := 0 }

/-! ## main.py — search parameters and the run entry point -/

inductive FirstSolutionStrategy where
  | PATH_CHEAPEST_ARC
deriving DecidableEq

inductive LocalSearchMetaheuristic where
  | GUIDED_LOCAL_SEARCH
deriving DecidableEq

/-- The fields of the OR-Tools search parameters that
`optimize_with_ors` sets. -/
structure SearchParams where
  first_solution_strategy : FirstSolutionStrategy
  local_search_metaheuristic : LocalSearchMetaheuristic
  time_limit_seconds : Nat
deriving DecidableEq

/-- The parameters `optimize_with_ors` assembles before calling
`SolveWithParameters`: the strategy, metaheuristic and the 10-second
time limit are all assigned from literals inside the function body. -/
def configured_search_params : SearchParams :=
  { first_solution_strategy := .PATH_CHEAPEST_ARC,
    local_search_metaheuristic := .GUIDED_LOCAL_SEARCH,
    time_limit_seconds := 10 }

/-- What the tail of `optimize_with_ors` prints: the solution report
when the solver returns an assignment, otherwise a bare message. -/
inductive RunResult where
  | solved : Report → RunResult
  | failed : String → RunResult
deriving DecidableEq

/-- The literal printed by the `else` branch of `optimize_with_ors`. -/
def no_solution_msg : String := "No solution found."

/-- The observable actions of one `optimize_with_ors` run: the single
matrix request issued to the distance provider, the parameters handed
to the solver, and the outcome (`none` when the matrix conversion
raises and the run aborts before solving). -/
structure RunEffects where
  matrix_request : MatrixRequest
  solver_params : SearchParams
  outcome : Option RunResult
deriving DecidableEq

/-- `optimize_with_ors(students_csv, buses_csv, school_lat, school_lon,
ors_key)`. The Python signature carries exactly these five parameters
(with defaults `30.3565`, `76.3647`, `"YOUR_ORS_KEY"`); the CSV files
are modelled by their parsed rows, and the two external collaborators
(distance provider, OR-Tools solver) by function parameters. -/
def optimize_with_ors (studentRows : List StudentRow) (buses : List Bus)
    (school_lat school_lon : ℚ) (ors_key : String)
    (provider : MatrixRequest → RawMatrix)
    (solve : DataModel → SearchParams → Option Solution) : RunEffects :=
  let students := (load_students studentRows).1
  let school_coords : Coord := (school_lon, school_lat)
  let coords := school_coords :: students.map (fun s => (s.lon, s.lat))
  let _ := ors_key
  { matrix_request := ors_matrix_request coords,
    solver_params := configured_search_params,
    outcome :=
      match create_data_model students buses school_coords provider with
      | none => none
      | some data =>
          some (match solve data configured_search_params with
                | some s => RunResult.solved (print_solution data s)
                | none => RunResult.failed no_solution_msg) }

/-! ## Helper lemmas -/

lemma fields_geocode_row (g : String → GeoResult) (r : InRow) :
    (geocode_row g r).fields = r.fields := by
  unfold geocode_row
  cases g r.address <;> rfl

lemma decode_row_none :
    ∀ (row : List (Option Int)), row.any (fun c => c.isNone) = true →
      decode_row row = none := by
  intro row
  induction row with
  | nil => intro h; simp at h
  | cons c rest ih =>
      intro h
      cases c with
      | none => rfl
      | some d =>
          simp only [List.any_cons, Option.isNone_some, Bool.false_or] at h
          simp [decode_row, ih h]

lemma decode_distances_none :
    ∀ (raw : RawMatrix), raw.any (fun row => row.any (fun c => c.isNone)) = true →
      decode_distances raw = none := by
  intro raw
  induction raw with
  | nil => intro h; simp at h
  | cons row rest ih =>
      intro h
      simp only [List.any_cons, Bool.or_eq_true] at h
      rcases h with h1 | h2
      · simp [decode_distances, decode_row_none _ h1]
      · cases hdr : decode_row row <;> simp [decode_distances, hdr, ih h2]

lemma getD_replicate (x : Int) :
    ∀ (n k : Nat), k < n → (List.replicate n x).getD k 0 = x := by
  intro n
  induction n with
  | zero => intro k hk; exact absurd hk (by omega)
  | succ m ih =>
      intro k hk
      cases k with
      | zero => simp [List.replicate_succ]
      | succ j =>
          simp only [List.replicate_succ, List.getD_cons_succ]
          exact ih j (by omega)

lemma print_fold_total (data : DataModel) (sol : Solution) :
    ∀ (l : List Nat) (acc : Report),
      (l.foldl (print_step data sol) acc).total_dist
        = acc.total_dist
          + (l.map (fun v =>
              route_dist_loop data.distance_matrix (sol.routes.getD v [0]))).sum := by
  intro l
  induction l with
  | nil => intro acc; simp
  | cons v rest ih =>
      intro acc
      simp only [List.foldl_cons, List.map_cons, List.sum_cons]
      rw [ih]
      simp only [print_step]
      ring

/-! ## Concrete instances used by counterexamples and witnesses -/

/-- Five resolved student rows (aggregate demand 5). -/
def rowsA : List StudentRow :=
  [{ id := 1, name := "a1", lat := some 1, lon := some 1 },
   { id := 2, name := "a2", lat := some 2, lon := some 1 },
   { id := 3, name := "a3", lat := some 1, lon := some 2 },
   { id := 4, name := "a4", lat := some 2, lon := some 2 },
   { id := 5, name := "a5", lat := some 3, lon := some 1 }]

/-- One bus of capacity 3 (aggregate capacity 3). -/
def busesA : List Bus := [{ id := 1, capacity := 3 }]

/-- A well-formed 6×6 provider reply for the depot plus `rowsA`. -/
def providerA : MatrixRequest → RawMatrix :=
  fun _ => List.replicate 6 (List.replicate 6 (some 1))

/-- Two resolved student rows (aggregate demand 2). -/
def rowsB : List StudentRow :=
  [{ id := 1, name := "b1", lat := some 1, lon := some 1 },
   { id := 2, name := "b2", lat := some 2, lon := some 1 }]

/-- One bus of capacity 3. -/
def busesB : List Bus := [{ id := 7, capacity := 3 }]

/-- A well-formed 3×3 provider reply for the depot plus `rowsB`. -/
def providerB : MatrixRequest → RawMatrix :=
  fun _ => List.replicate 3 (List.replicate 3 (some 2))

/-- A solver that finds no assignment. -/
def solve_none : DataModel → SearchParams → Option Solution := fun _ _ => none

/-- A solver that returns the all-trivial assignment. -/
def solve_trivial : DataModel → SearchParams → Option Solution :=
  fun d _ => some { routes := List.replicate d.num_vehicles [0] }

/-- The empty data model, used only as a `getD` fallback. -/
def emptyData : DataModel :=
  { distance_matrix := [], demands := [], vehicle_capacities := [],
    num_vehicles := 0, depot := 0, coords := [], students := [], buses := [] }

/-- The data model built from `rowsA`/`busesA`. -/
def dataA : DataModel :=
  (create_data_model (load_students rowsA).1 busesA (2, 1) providerA).getD emptyData

/-! ## Claims -/

/-- Claim C1, counterexample. On an instance with total demand 5 and
total capacity 3, the run does not end with a CAPACITY_INFEASIBLE
diagnostic: it prints the generic "No solution found." message, and the
search IS attempted — the outcome depends on the solver, which it could
not if a pre-search validation ended the run. -/
theorem c1_counterexample :
    (create_data_model (load_students rowsA).1 busesA (2, 1) providerA).map total_demand
      = some 5
    ∧ (create_data_model (load_students rowsA).1 busesA (2, 1) providerA).map total_capacity
      = some 3
    ∧ (optimize_with_ors rowsA busesA 1 2 "key" providerA solve_none).outcome
      = some (RunResult.failed no_solution_msg)
    ∧ (optimize_with_ors rowsA busesA 1 2 "key" providerA solve_trivial).outcome
      ≠ (optimize_with_ors rowsA busesA 1 2 "key" providerA solve_none).outcome := by
  refine ⟨by decide, by decide, by decide, by decide⟩

/-- Claim C1, amended: `optimize_with_ors` performs no demand/capacity
validation and always invokes the solver; when total demand exceeds
total capacity the solver returns no assignment and the run ends by
printing the generic "No solution found." message — no Solution is
produced, but no CAPACITY_INFEASIBLE diagnostic exists. -/
theorem c1_amended (rows : List StudentRow) (buses : List Bus) (la lo : ℚ)
    (key : String) (provider : MatrixRequest → RawMatrix)
    (solve : DataModel → SearchParams → Option Solution) (data : DataModel)
    (hdata : create_data_model (load_students rows).1 buses (lo, la) provider = some data)
    (hcap : total_capacity data < total_demand data)
    (hsolve : solve data configured_search_params = none) :
    (optimize_with_ors rows buses la lo key provider solve).outcome
      = some (RunResult.failed no_solution_msg) := by
  simp [optimize_with_ors, hdata, hsolve]

theorem c1_amended_witness :
    total_capacity dataA < total_demand dataA
    ∧ (optimize_with_ors rowsA busesA 1 2 "key" providerA solve_none).outcome
      = some (RunResult.failed no_solution_msg) :=
  ⟨by decide,
   c1_amended rowsA busesA 1 2 "key" providerA solve_none dataA (by decide) (by decide) rfl⟩

/-- Claim C2, counterexample. Instance A is aggregate-infeasible
(demand 5, capacity 3) and instance B is aggregate-feasible (demand 2,
capacity 3); when the solver finds nothing, both runs produce the
identical outcome — the two failure modes are not distinguishable in
the program's output. -/
theorem c2_counterexample :
    (create_data_model (load_students rowsA).1 busesA (2, 1) providerA).map total_demand
      = some 5
    ∧ (create_data_model (load_students rowsA).1 busesA (2, 1) providerA).map total_capacity
      = some 3
    ∧ (create_data_model (load_students rowsB).1 busesB (2, 1) providerB).map total_demand
      = some 2
    ∧ (create_data_model (load_students rowsB).1 busesB (2, 1) providerB).map total_capacity
      = some 3
    ∧ (optimize_with_ors rowsA busesA 1 2 "key" providerA solve_none).outcome
      = (optimize_with_ors rowsB busesB 1 2 "key" providerB solve_none).outcome := by
  refine ⟨by decide, by decide, by decide, by decide, by decide⟩

/-- Claim C2, amended: when construction cannot place all demand
despite aggregate feasibility (solver returns no assignment), the run
prints "No solution found." — the same output produced when aggregate
capacity is insufficient, so the two failure modes are not
distinguishable. -/
theorem c2_amended (rows1 rows2 : List StudentRow) (buses1 buses2 : List Bus)
    (la1 lo1 la2 lo2 : ℚ) (key1 key2 : String)
    (provider1 provider2 : MatrixRequest → RawMatrix)
    (solve1 solve2 : DataModel → SearchParams → Option Solution) (d1 d2 : DataModel)
    (h1 : create_data_model (load_students rows1).1 buses1 (lo1, la1) provider1 = some d1)
    (h2 : create_data_model (load_students rows2).1 buses2 (lo2, la2) provider2 = some d2)
    (hc1 : total_demand d1 ≤ total_capacity d1)
    (hc2 : total_capacity d2 < total_demand d2)
    (hs1 : solve1 d1 configured_search_params = none)
    (hs2 : solve2 d2 configured_search_params = none) :
    (optimize_with_ors rows1 buses1 la1 lo1 key1 provider1 solve1).outcome
      = some (RunResult.failed no_solution_msg)
    ∧ (optimize_with_ors rows1 buses1 la1 lo1 key1 provider1 solve1).outcome
      = (optimize_with_ors rows2 buses2 la2 lo2 key2 provider2 solve2).outcome := by
  constructor
  · simp [optimize_with_ors, h1, hs1]
  · simp [optimize_with_ors, h1, hs1, h2, hs2]

theorem c2_amended_witness :
    (optimize_with_ors rowsB busesB 1 2 "key" providerB solve_none).outcome
      = some (RunResult.failed no_solution_msg)
    ∧ (optimize_with_ors rowsB busesB 1 2 "key" providerB solve_none).outcome
      = (optimize_with_ors rowsA busesA 1 2 "key" providerA solve_none).outcome :=
  c2_amended rowsB rowsA busesB busesA 1 2 1 2 "key" "key" providerB providerA
    solve_none solve_none
    ((create_data_model (load_students rowsB).1 busesB (2, 1) providerB).getD emptyData)
    dataA (by decide) (by decide) (by decide) (by decide) rfl rfl

/-- Claim C4: the aggregate distance reported by `print_solution` is
the sum, over all vehicles (trivial depot-to-depot routes included), of
the per-route distances, each being the sum of the consecutive
directional arc costs along the route closed back at the depot. -/
theorem c4_total_distance (data : DataModel) (sol : Solution) :
    (print_solution data sol).total_dist
      = ((List.range data.num_vehicles).map
          (fun v => route_distance data.distance_matrix (sol.routes.getD v [0]))).sum := by
  unfold print_solution
  rw [print_fold_total]
  simp [route_dist_loop_eq_route_distance]

/-- A provider reply whose second row is short: the value for the
coordinate pair (1,1) is absent. -/
def provider_ragged : MatrixRequest → RawMatrix :=
  fun _ => [[some 0, some 5], [some 4]]

/-- Two coordinates, so a complete matrix would be 2×2. -/
def coords2 : List Coord := [(0, 0), (1, 1)]

/-- Claim C5, counterexample. When the provider's reply omits an entry
(a short row), `build_distance_matrix_ors` does not fail: it returns
the incomplete matrix `[[0, 5], [4]]` for a 2-coordinate request. -/
theorem c5_counterexample :
    build_distance_matrix_ors provider_ragged coords2 = some [[0, 5], [4]]
    ∧ is_complete_matrix coords2.length [[0, 5], [4]] = false := by
  refine ⟨by decide, by decide⟩

/-- Claim C5, amended: if any cell present in the provider's reply is
malformed (non-numeric, e.g. null — `int(d)` raises), the whole build
fails and no matrix is returned; but the build performs no dimension
check, so absent rows or short rows yield a smaller matrix instead of a
failure. -/
theorem c5_amended (provider : MatrixRequest → RawMatrix) (coords : List Coord)
    (h : (provider (ors_matrix_request coords)).any
          (fun row => row.any (fun c => c.isNone)) = true) :
    build_distance_matrix_ors provider coords = none := by
  unfold build_distance_matrix_ors
  exact decode_distances_none _ h

/-- A provider reply containing a null cell. -/
def provider_null : MatrixRequest → RawMatrix :=
  fun _ => [[some 0, none], [some 4, some 0]]

theorem c5_amended_witness :
    (provider_null (ors_matrix_request coords2)).any
        (fun row => row.any (fun c => c.isNone)) = true
    ∧ build_distance_matrix_ors provider_null coords2 = none :=
  ⟨by decide, c5_amended provider_null coords2 (by decide)⟩

/-- Claim C6, counterexample. Two runs with completely different
entry-point arguments (rows, buses, depot coordinate, key, provider,
solver): the depot coordinate flows into the matrix request (the
location lists differ), but the travel profile and the solver time
budget are identical constants — "driving-car" and 10 seconds — because
neither is a parameter of `optimize_with_ors`. -/
theorem c6_counterexample :
    (optimize_with_ors rowsA busesA 1 2 "k1" providerA solve_none).matrix_request.locations
      ≠ (optimize_with_ors rowsB busesB 30 76 "k2" providerB solve_trivial).matrix_request.locations
    ∧ (optimize_with_ors rowsA busesA 1 2 "k1" providerA solve_none).matrix_request.profile
      = "driving-car"
    ∧ (optimize_with_ors rowsB busesB 30 76 "k2" providerB solve_trivial).matrix_request.profile
      = "driving-car"
    ∧ (optimize_with_ors rowsA busesA 1 2 "k1" providerA solve_none).solver_params.time_limit_seconds
      = 10
    ∧ (optimize_with_ors rowsB busesB 30 76 "k2" providerB solve_trivial).solver_params.time_limit_seconds
      = 10 := by
  refine ⟨by decide, by decide, by decide, by decide, by decide⟩

/-- Claim C6, amended: the depot coordinate is an explicit parameter of
the entry point (it heads the coordinate list sent to the provider),
but the travel profile and the time budget are hardcoded — every run
requests profile "driving-car" and solves with a 10-second limit,
whatever the arguments. -/
theorem c6_amended (rows : List StudentRow) (buses : List Bus) (la lo : ℚ)
    (key : String) (provider : MatrixRequest → RawMatrix)
    (solve : DataModel → SearchParams → Option Solution) :
    (optimize_with_ors rows buses la lo key provider solve).matrix_request.profile
      = "driving-car"
    ∧ (optimize_with_ors rows buses la lo key provider solve).solver_params.time_limit_seconds
      = 10
    ∧ (optimize_with_ors rows buses la lo key provider solve).matrix_request.locations.head?
      = some (lo, la) := by
  refine ⟨rfl, rfl, ?_⟩
  simp [optimize_with_ors, ors_matrix_request]

/-- Claim C7: `load_students` keeps exactly the rows with both
coordinates present (in order), prints one warning per excluded row,
and the data model handed to the solver is built from the kept rows
only — an excluded record contributes no node and no demand entry. -/
theorem c7_exclusions (rows : List StudentRow) (buses : List Bus) (school : Coord)
    (provider : MatrixRequest → RawMatrix) (data : DataModel)
    (hdata : create_data_model (load_students rows).1 buses school provider = some data) :
    (load_students rows).1 = (rows.filter StudentRow.resolved).map StudentRow.toStudent
    ∧ (load_students rows).2
      = (rows.filter (fun r => !r.resolved)).map (fun r => skip_msg r.name)
    ∧ data.students = (load_students rows).1
    ∧ data.demands.length = (load_students rows).1.length + 1
    ∧ data.coords.length = (load_students rows).1.length + 1 := by
  simp only [create_data_model] at hdata
  split at hdata
  · exact absurd hdata (by simp)
  · rename_i m hm
    injection hdata with hdata
    subst hdata
    refine ⟨?_, ?_, rfl, by simp, by simp⟩
    · rw [load_students_eq]
    · rw [load_students_eq]

/-- Three student rows, the middle one with an empty latitude. -/
def rowsC : List StudentRow :=
  [{ id := 1, name := "c1", lat := some 1, lon := some 1 },
   { id := 2, name := "c2", lat := none, lon := some 1 },
   { id := 3, name := "c3", lat := some 2, lon := some 2 }]

/-- A well-formed 3×3 provider reply for the depot plus the two kept
rows of `rowsC`. -/
def providerC : MatrixRequest → RawMatrix :=
  fun _ => List.replicate 3 (List.replicate 3 (some 1))

/-- The data model built from `rowsC`. -/
def dataC : DataModel :=
  (create_data_model (load_students rowsC).1 busesB (0, 0) providerC).getD emptyData

theorem c7_witness :
    (load_students rowsC).1 = (rowsC.filter StudentRow.resolved).map StudentRow.toStudent
    ∧ (load_students rowsC).2
      = (rowsC.filter (fun r => !r.resolved)).map (fun r => skip_msg r.name)
    ∧ dataC.students = (load_students rowsC).1
    ∧ dataC.demands.length = (load_students rowsC).1.length + 1
    ∧ dataC.coords.length = (load_students rowsC).1.length + 1 :=
  c7_exclusions rowsC busesB (0, 0) providerC dataC (by decide)

/-- A geocoder row whose call fails is written with empty coordinates. -/
lemma geocode_row_fail (g : String → GeoResult) (r : InRow)
    (h : (g r.address).isFail = true) :
    geocode_row g r = { fields := r.fields, lat := none, lon := none } := by
  unfold geocode_row
  cases hg : g r.address with
  | found lon lat =>
      rw [hg] at h
      exact absurd h (by simp [GeoResult.isFail])
  | empty => rfl
  | error e => rfl

/-- Claim C8: a geocoder failure on one address (exception or empty
feature list) does not abort the batch — the failing row is written
with empty coordinates and every row before and after it is processed
exactly as it would be alone. -/
theorem c8_batch_isolated (g : String → GeoResult) (r : InRow) (pre post : List InRow)
    (h : (g r.address).isFail = true) :
    geocode_addresses g (pre ++ r :: post)
      = geocode_addresses g pre
        ++ ({ fields := r.fields, lat := none, lon := none } :: geocode_addresses g post) := by
  simp [geocode_addresses_eq_map, geocode_row_fail g r h]

/-- A geocoder that raises on the address "bad" and succeeds elsewhere. -/
def gW : String → GeoResult :=
  fun a => if a = "bad" then GeoResult.error "boom" else GeoResult.found 1 2

def rW : InRow := { fields := [("address", "bad")], address := "bad" }

def preW : List InRow := [{ fields := [("address", "x")], address := "x" }]

def postW : List InRow := [{ fields := [("address", "y")], address := "y" }]

theorem c8_witness :
    (gW rW.address).isFail = true
    ∧ geocode_addresses gW (preW ++ rW :: postW)
      = geocode_addresses gW preW
        ++ ({ fields := rW.fields, lat := none, lon := none } :: geocode_addresses gW postW) :=
  ⟨by decide, c8_batch_isolated gW rW preW postW (by decide)⟩

/-- Claim C9: the demand vector of the data model has one entry per
node (depot plus loaded stops), the depot entry at index 0 is 0, and
every other entry is 1. -/
theorem c9_demand_vector (students : List Student) (buses : List Bus) (school : Coord)
    (provider : MatrixRequest → RawMatrix) (data : DataModel)
    (hdata : create_data_model students buses school provider = some data)
    (i : Nat) (h1 : 1 ≤ i) (h2 : i < students.length + 1) :
    data.demands.length = students.length + 1
    ∧ data.demands.getD 0 0 = 0
    ∧ data.demands.getD i 0 = 1 := by
  simp only [create_data_model] at hdata
  split at hdata
  · exact absurd hdata (by simp)
  · rename_i m hm
    injection hdata with hdata
    subst hdata
    refine ⟨by simp, rfl, ?_⟩
    cases i with
    | zero => omega
    | succ j =>
        simp only [List.getD_cons_succ]
        exact getD_replicate 1 students.length j (by omega)

def studentsW : List Student := [{ id := 1, name := "w", lat := 1, lon := 1 }]

def providerW : MatrixRequest → RawMatrix :=
  fun _ => [[some 0, some 1], [some 1, some 0]]

/-- The data model built from `studentsW`. -/
def dataW : DataModel :=
  (create_data_model studentsW busesB (0, 0) providerW).getD emptyData

theorem c9_witness :
    dataW.demands.length = studentsW.length + 1
    ∧ dataW.demands.getD 0 0 = 0
    ∧ dataW.demands.getD 1 0 = 1 :=
  c9_demand_vector studentsW busesB (0, 0) providerW dataW (by decide) 1 (by decide) (by decide)

/-- Claim C10: `geocode_addresses` writes exactly one output row per
input row in order, preserves every original field, and a row whose
geocoding fails (exception or no features) is still written, with both
coordinate fields set to the empty value. -/
theorem c10_one_row_per_row (g : String → GeoResult) (rows : List InRow) :
    (geocode_addresses g rows).length = rows.length
    ∧ (geocode_addresses g rows).map OutRow.fields = rows.map InRow.fields
    ∧ geocode_addresses g rows
      = rows.map (fun r =>
          if (g r.address).isFail = true then
            { fields := r.fields, lat := none, lon := none }
          else geocode_row g r) := by
  refine ⟨?_, ?_, ?_⟩
  · simp [geocode_addresses_eq_map]
  · simp [geocode_addresses_eq_map, List.map_map, Function.comp, fields_geocode_row]
  · rw [geocode_addresses_eq_map]
    induction rows with
    | nil => rfl
    | cons r rest ih =>
        simp only [List.map_cons]
        rw [ih]
        by_cases hf : (g r.address).isFail = true
        · simp [hf, geocode_row_fail g r hf]
        · simp [hf]

end BusRouting
